import Mathlib

/-!
# k6-ui: job runner and live-telemetry broadcast

A shallow embedding of `server.js` (the `/run-test` and `/cancel-test` handlers, the
stdout buffering, the WebSocket broadcast) and of `processTestSummary` from `App.js`,
followed by the theorems that settle the properties stated about them.

Conventions of the embedding.
* The numbers of a request body are whole numbers (`Int`). The server holds each as the
  nearest double, subtracts doubles and prints a double the way `Number.prototype.toString`
  does: all digits below `2 ^ 53`, the shortest digits that read back above, exponent form
  from `10 ^ 21` on.
* A missing property is `none` (JavaScript `undefined`).
* An object is the list of its own properties in enumeration order, keys distinct.
* Handlers run to completion, one event at a time (the Node.js event loop).
-/

namespace K6

set_option maxRecDepth 100000

/-! ## Script generation (`server.js`, lines 22-101) -/

/-- The body of a `/run-test` request, destructured at lines 23-32. A number is the whole
number written in the body; the server works on the double that parsing it gives. -/
structure TestConfig where
  users : Int
  duration : Int
  urls : List String
  loadProfile : String
  rampUpDuration : Option Int
  httpMethod : String
  headers : Option (List (String × String))

/-- A JavaScript number whose value is an integer: what a whole number of a request body is
once `express.json()` has parsed it, and what subtracting two of them gives. -/
inductive JsInteger where
  | nan
  | infinity (negative : Bool)
  | finite (value : Int)
  deriving DecidableEq

/-- The least magnitude that does not fit a double: `2 ^ 1024`. -/
def DOUBLE_OVERFLOW : Nat :=
  179769313486231590772930519078902473361797697894230657273430081157732675805500963132708477322407536021120113879871393357658789768814416622492847430639474124377767893424865485276302219601246094119453082952085005768838150682342462881473913110540827237163350510684586298239947245938479716304835356329624224137216

/-- A magnitude rounded to the nearest one with 53 significant bits, ties to the even
significand: the magnitude of the nearest double. Below `2 ^ 53` nothing is rounded. -/
def roundMagnitude (m : Nat) : Nat :=
  if m < 9007199254740992 then m
  else
    let shift := (Nat.toDigits 2 m).length - 53
    let q := m / 2 ^ shift
    let r := m % 2 ^ shift
    let half := 2 ^ (shift - 1)
    if half < r ∨ (r = half ∧ q % 2 = 1) then (q + 1) * 2 ^ shift else q * 2 ^ shift

/-- The double nearest to an integer (IEEE 754, round to nearest, ties to even). -/
def toDouble (n : Int) : JsInteger :=
  if roundMagnitude n.natAbs < DOUBLE_OVERFLOW then
    .finite (if n < 0 then -(roundMagnitude n.natAbs : Int) else roundMagnitude n.natAbs)
  else .infinity (decide (n < 0))

/-- The operator `-` on numbers with integer values. -/
def JsInteger.sub : JsInteger → JsInteger → JsInteger
  | .finite a, .finite b => toDouble (a - b)
  | .finite _, .infinity negative => .infinity (!negative)
  | .infinity negative, .finite _ => .infinity negative
  | .infinity n, .infinity k => if n = k then .nan else .infinity n
  | _, _ => .nan

/-- The decimal with `k` significant digits that reads back as the double of magnitude `m`, if
there is one: the nearest to `m`, the one with the even last digit on a tie. -/
def decimalOfLength (m k : Nat) : Option Nat :=
  let p := (Nat.toDigits 10 m).length - k
  let lo := m / 10 ^ p * 10 ^ p
  let hi := lo + 10 ^ p
  if roundMagnitude lo = m ∧ roundMagnitude hi = m then
    if m - lo < hi - m then some lo
    else if hi - m < m - lo then some hi
    else if m / 10 ^ p % 2 = 0 then some lo else some hi
  else if roundMagnitude lo = m then some lo
  else if roundMagnitude hi = m then some hi
  else none

/-- The decimal with the fewest significant digits that reads back as the double of
magnitude `m` (at most 17 digits are needed). -/
def shortestDecimal (m : Nat) : Nat :=
  ((List.range 17).findSome? fun i => decimalOfLength m (i + 1)).getD m

/-- The digits of a decimal without its trailing zeros. -/
def significantDigits (c : Nat) : List Char :=
  ((Nat.toDigits 10 c).reverse.dropWhile (fun d => d = '0')).reverse

/-- The text of a positive integer as `Number.prototype.toString` writes it: all digits below
`10 ^ 21`, exponent form from there on. -/
def renderMagnitude (c : Nat) : String :=
  if c < 1000000000000000000000 then toString c
  else
    match significantDigits c with
    | [] => "0"
    | [d] => String.mk [d] ++ "e+" ++ toString ((Nat.toDigits 10 c).length - 1)
    | d :: ds =>
      String.mk (d :: '.' :: ds) ++ "e+" ++ toString ((Nat.toDigits 10 c).length - 1)

/-- The text of a number in a template literal (`Number.prototype.toString`). An integer
below `2 ^ 53` in magnitude is written with all its digits. -/
def numberToString : JsInteger → String
  | .nan => "NaN"
  | .infinity negative => if negative then "-Infinity" else "Infinity"
  | .finite v =>
    if v.natAbs < 9007199254740992 then toString v
    else (if v < 0 then "-" else "") ++ renderMagnitude (shortestDecimal v.natAbs)

/-- Template rendering of a possibly missing number: `undefined` prints as such. -/
def renderNumber : Option Int → String
  | some n => numberToString (toDouble n)
  | none => "undefined"

/-- Template rendering of `duration - rampUpDuration`: the doubles are subtracted, a missing
operand gives `NaN`. -/
def renderDifference (duration : Int) : Option Int → String
  | some r => numberToString ((toDouble duration).sub (toDouble r))
  | none => "NaN"

/-- The stanza chosen by `switch (loadProfile)` (lines 36-52). -/
def optionsContent (cfg : TestConfig) : String :=
  if cfg.loadProfile = "ramp-up" then
    "\n    stages: [\n      \x7b duration: '" ++ renderNumber cfg.rampUpDuration
      ++ "s', target: " ++ numberToString (toDouble cfg.users)
      ++ " \x7d,\n      \x7b duration: '"
      ++ renderDifference cfg.duration cfg.rampUpDuration
      ++ "s', target: " ++ numberToString (toDouble cfg.users) ++ " \x7d,\n    ],\n    "
  else
    "\n    vus: " ++ numberToString (toDouble cfg.users) ++ ",\n    duration: '"
      ++ numberToString (toDouble cfg.duration) ++ "s',\n    "

/-- Four hexadecimal digits of a code unit, as `JSON.stringify` prints control characters. -/
def hex4 (n : Nat) : String :=
  String.mk ((List.range 4).reverse.map fun i => (Nat.toDigits 16 (n / 16 ^ i % 16)).headD '0')

/-- One character of a string as `JSON.stringify` quotes it. -/
def jsonEscapeChar (c : Char) : String :=
  if c = '"' then "\\\""
  else if c = '\\' then "\\\\"
  else if c = '\x08' then "\\b"
  else if c = '\x0c' then "\\f"
  else if c = '\n' then "\\n"
  else if c = '\r' then "\\r"
  else if c = '\t' then "\\t"
  else if c.toNat < 32 then "\\u" ++ hex4 c.toNat
  else String.singleton c

/-- Text of `JSON.stringify(s)` for a string `s`. -/
def jsonQuote (s : String) : String :=
  "\"" ++ String.join (s.data.map jsonEscapeChar) ++ "\""

/-- Text of `JSON.stringify(headers)` for an object whose values are strings. -/
def jsonStringifyHeaders (headers : List (String × String)) : String :=
  "\x7b" ++ String.intercalate ","
    (headers.map fun kv => jsonQuote kv.1 ++ ":" ++ jsonQuote kv.2) ++ "\x7d"

/-- The declaration of `headers` (lines 54-59): present only for a non-empty object. -/
def headersContent (cfg : TestConfig) : String :=
  match cfg.headers with
  | some (kv :: kvs) =>
    "\n  const headers = " ++ jsonStringifyHeaders (kv :: kvs) ++ ";\n    "
  | _ => ""

/-- The request statement (lines 61-71); no branch assigns it for another method. -/
def requestContent (httpMethod : String) : Option String :=
  if httpMethod = "GET" then
    some "\n      let res = http.get(url, \x7b headers: headers \x7d);\n    "
  else if httpMethod = "POST" then
    some ("\n      let payload = \x7b\x7d;  // You might want to populate this based on your needs"
      ++ "\n      let res = http.post(url, JSON.stringify(payload), \x7b headers: headers \x7d);\n    ")
  else none

/-- Template rendering of `requestContent`: an unassigned variable prints `undefined`. -/
def renderRequest : Option String → String
  | some text => text
  | none => "undefined"

/-- The text after the URL in one iteration block (lines 90-94). -/
def blockTail (request : Option String) : String :=
  "';\n    " ++ renderRequest request
    ++ "\n    check(res, \x7b 'status is 200': (r) => r.status === 200 \x7d);"
    ++ "\n    sleep(1);  // Add a 1 second sleep between iterations\n    "

/-- The callback of `urls.map` (lines 89-94): the block generated for one URL. -/
def iterationBlock (request : Option String) (url : String) : String :=
  "\n    const url = '" ++ url ++ blockTail request

/-- The text of `scriptContent` before the iteration blocks (lines 73-87). -/
def scriptHead (cfg : TestConfig) : String :=
  "\n  import http from 'k6/http';\n  import \x7b check, sleep \x7d from 'k6';\n\n  "
    ++ headersContent cfg
    ++ "\n\n  export const options = \x7b\n    "
    ++ optionsContent cfg
    ++ "\n    thresholds: \x7b\n      http_req_duration: ['p(95)<500'],\n    \x7d,\n  \x7d;"
    ++ "\n\n  export default function () \x7b\n    "

/-- The generated k6 script (lines 73-98). -/
def scriptContent (cfg : TestConfig) : String :=
  scriptHead cfg
    ++ String.join (cfg.urls.map (iterationBlock (requestContent cfg.httpMethod)))
    ++ "\n  \x7d;\n"

/-! ## Messages and subscribers (`ws`) -/

/-- A parsed JSON document; numbers are kept as rationals. -/
inductive Json where
  | null
  | bool (b : Bool)
  | num (q : ℚ)
  | str (s : String)
  | arr (items : List Json)
  | obj (props : List (String × Json))

/-- The `data` member of a message: text, or (for a summary) a parsed document. -/
inductive Payload where
  | text (s : String)
  | json (j : Json)

/-- The object handed to `JSON.stringify` before `client.send`. -/
structure Message where
  type : String
  data : Payload

/-- Why a handler did not run to completion. -/
inductive Failure where
  /-- A JavaScript exception left the handler. -/
  | thrown (message : String)
  /-- The event belongs to a process that is not running: it cannot occur. -/
  | notRunning
  /-- The event comes after an uncaught exception has ended the server: it cannot occur. -/
  | serverDown

/-- The `readyState` constants of a WebSocket. -/
def CONNECTING : Nat := 0

/-- The `readyState` of a socket that can carry data. -/
def OPEN : Nat := 1

/-- One member of `wss.clients`: its state and the frames handed to it so far. -/
structure Client where
  readyState : Nat
  received : List Message

/-- The library call `client.send(data)`: it throws on a connecting socket, drops the frame
on a closing or closed one, and queues it on an open one. -/
def Client.send (c : Client) (m : Message) : Except Failure Client :=
  if c.readyState = CONNECTING then
    .error (.thrown "WebSocket is not open: readyState 0 (CONNECTING)")
  else if c.readyState = OPEN then
    .ok { c with received := c.received ++ [m] }
  else
    .ok c

/-- The loop `wss.clients.forEach((client) => { if (client.readyState === WebSocket.OPEN)
client.send(...) })` (lines 117-121, 134-138, 149-155, 165-171). The result is the
registry after the loop. -/
def broadcast (m : Message) : List Client → Except Failure (List Client)
  | [] => .ok []
  | c :: cs => do
    let c1 ← if c.readyState = OPEN then c.send m else .ok c
    let cs1 ← broadcast m cs
    .ok (c1 :: cs1)

/-! ## The supervisor (`server.js`, lines 20, 103-176) -/

/-- The white space and line terminators that `String.prototype.trim` removes. -/
def isWhiteSpace (c : Char) : Bool :=
  c.toNat ∈ [0x09, 0x0A, 0x0B, 0x0C, 0x0D, 0x20, 0xA0, 0x1680, 0x2028, 0x2029, 0x202F,
    0x205F, 0x3000, 0xFEFF] || (0x2000 ≤ c.toNat && c.toNat ≤ 0x200A)

/-- The method `String.prototype.trim`. -/
def trim (s : String) : String :=
  String.mk ((s.data.dropWhile isWhiteSpace).reverse.dropWhile isWhiteSpace).reverse

/-- The test `outputBuffer.includes("\n")`. -/
def includesNewline (s : String) : Bool :=
  s.data.contains '\n'

/-- A spawned k6 process together with the closure variables of its request. -/
structure Proc where
  /-- Its `close` event has not been delivered yet. -/
  running : Bool
  /-- The method `kill()` has been called on it. -/
  signalled : Bool
  /-- The variable `outputBuffer` of line 113. -/
  outputBuffer : String

/-- The state of the server: the shared handle `currentK6Process`, every process spawned so
far (a process is named by its position), the subscribers and the script file. -/
structure Server where
  currentK6Process : Option Nat
  procs : List Proc
  clients : List Client
  scriptFile : Option String

/-- The server at start-up with the given subscribers. -/
def Server.init (clients : List Client) : Server :=
  { currentK6Process := none, procs := [], clients := clients, scriptFile := none }

/-- What the callback of `fs.readFile("summary.json")` finds. -/
inductive SummaryFile where
  /-- The read reports an error (`err` is set): the callback logs it and returns. -/
  | unreadable
  /-- The file is read and its content is not JSON: `JSON.parse` throws a `SyntaxError`. -/
  | malformed
  /-- The file is read and `JSON.parse` gives this document. -/
  | parsed (j : Json)

/-- What the server can be asked to handle. -/
inductive Event where
  /-- A request `POST /run-test` with this body. -/
  | runTest (cfg : TestConfig)
  /-- A request `POST /cancel-test`. -/
  | cancelTest
  /-- A chunk on the standard output of process `pid`. -/
  | stdoutData (pid : Nat) (data : String)
  /-- A chunk on the standard error of process `pid`. -/
  | stderrData (pid : Nat) (data : String)
  /-- The `close` event of process `pid`; `summary` is what the read of `summary.json`
  that the listener starts will find. -/
  | close (pid : Nat) (summary : SummaryFile)

/-- What a handler does to the outside, in order. -/
inductive Effect where
  | writeScript (content : String)
  | kill (pid : Nat)
  | spawn (pid : Nat)
  | readSummary
  /-- One pass of the loop over `wss.clients` with this message. -/
  | broadcast (m : Message)
  /-- The call `res.send` with a status and a one-member body. -/
  | respond (status : Nat) (key : String) (text : String)
  /-- An exception thrown in a callback where nothing catches it. Node.js ends the server
  process there: no event is handled after it. -/
  | uncaught (message : String)

/-- Process `pid` has been spawned and its `close` event is still to come. -/
def Server.isRunning (s : Server) (pid : Nat) : Bool :=
  match s.procs[pid]? with
  | some p => p.running
  | none => false

/-- The `outputBuffer` of process `pid`. -/
def Server.bufferOf (s : Server) (pid : Nat) : String :=
  match s.procs[pid]? with
  | some p => p.outputBuffer
  | none => ""

/-- Applies `f` to the record of process `pid`. -/
def Server.updateProc (s : Server) (pid : Nat) (f : Proc → Proc) : Server :=
  { s with procs := s.procs.modify f pid }

/-- The closure `sendBufferedOutput` (lines 115-124) of process `pid`. -/
def sendBufferedOutput (s : Server) (pid : Nat) : Except Failure (Server × List Effect) :=
  if trim (s.bufferOf pid) ≠ "" then do
    let m : Message := { type := "output", data := .text (s.bufferOf pid) }
    let clients ← broadcast m s.clients
    .ok (({ s with clients := clients }).updateProc pid fun p => { p with outputBuffer := "" },
      [.broadcast m])
  else
    .ok (s, [])

/-- The handler of `POST /run-test` (lines 22-159) up to the return of the request callback:
generate and write the script, signal the process behind the handle, spawn. -/
def runTest (s : Server) (cfg : TestConfig) : Except Failure (Server × List Effect) :=
  let script := scriptContent cfg
  let pid := s.procs.length
  match s.currentK6Process with
  | some old =>
    .ok ({ currentK6Process := some pid,
           procs := (s.procs.modify (fun p => { p with signalled := true }) old)
             ++ [{ running := true, signalled := false, outputBuffer := "" }],
           clients := s.clients,
           scriptFile := some script },
      [.writeScript script, .kill old, .spawn pid])
  | none =>
    .ok ({ currentK6Process := some pid,
           procs := s.procs ++ [{ running := true, signalled := false, outputBuffer := "" }],
           clients := s.clients,
           scriptFile := some script },
      [.writeScript script, .spawn pid])

/-- The handler of `POST /cancel-test` (lines 161-176). -/
def cancelTest (s : Server) : Except Failure (Server × List Effect) :=
  match s.currentK6Process with
  | some pid => do
    let m : Message := { type := "cancelled", data := .text "Test cancelled by user" }
    let clients ← broadcast m s.clients
    .ok ({ currentK6Process := none,
           procs := s.procs.modify (fun p => { p with signalled := true }) pid,
           clients := clients,
           scriptFile := s.scriptFile },
      [.kill pid, .broadcast m, .respond 200 "message" "Test cancelled"])
  | none =>
    .ok (s, [.respond 400 "error" "No test is currently running"])

/-- The listener on `stdout` (lines 126-131) of process `pid`. -/
def stdoutData (s : Server) (pid : Nat) (data : String) : Except Failure (Server × List Effect) :=
  if s.isRunning pid then
    let s1 := s.updateProc pid fun p => { p with outputBuffer := p.outputBuffer ++ data }
    if includesNewline (s1.bufferOf pid) then sendBufferedOutput s1 pid else .ok (s1, [])
  else
    .error .notRunning

/-- The listener on `stderr` (lines 133-139) of process `pid`. -/
def stderrData (s : Server) (pid : Nat) (data : String) : Except Failure (Server × List Effect) :=
  if s.isRunning pid then do
    let m : Message := { type := "error", data := .text data }
    let clients ← broadcast m s.clients
    .ok ({ s with clients := clients }, [.broadcast m])
  else
    .error .notRunning

/-- Some member of the registry is open. -/
def hasOpenClient (clients : List Client) : Bool :=
  clients.any fun c => decide (c.readyState = OPEN)

/-- The listener on `close` (lines 141-158) of process `pid`, with the callback of
`fs.readFile` run as part of it. The listener itself ends with `res.send`; in the callback,
`JSON.parse(data)` is evaluated inside the loop, for an open subscriber only, and nothing
catches what it throws. -/
def close (s : Server) (pid : Nat) (summary : SummaryFile) :
    Except Failure (Server × List Effect) :=
  if s.isRunning pid then do
    let (s1, flushed) ← sendBufferedOutput s pid
    let s2 : Server :=
      { (s1.updateProc pid fun p => { p with running := false }) with currentK6Process := none }
    match summary with
    | .unreadable =>
      .ok (s2, flushed ++ [.readSummary, .respond 200 "message" "Test completed"])
    | .malformed =>
      if hasOpenClient s2.clients then
        .ok (s2, flushed ++ [.readSummary, .respond 200 "message" "Test completed",
          .uncaught "SyntaxError: JSON.parse"])
      else
        .ok (s2, flushed ++ [.readSummary, .respond 200 "message" "Test completed"])
    | .parsed j => do
      let m : Message := { type := "summary", data := .json j }
      let clients ← broadcast m s2.clients
      .ok ({ s2 with clients := clients },
        flushed ++ [.readSummary, .respond 200 "message" "Test completed", .broadcast m])
  else
    .error .notRunning

/-- One event handled by the server. -/
def step (s : Server) : Event → Except Failure (Server × List Effect)
  | .runTest cfg => runTest s cfg
  | .cancelTest => cancelTest s
  | .stdoutData pid data => stdoutData s pid data
  | .stderrData pid data => stderrData s pid data
  | .close pid summary => close s pid summary

/-- Some of these effects is an uncaught exception: the server has ended. -/
def crashed : List Effect → Bool
  | [] => false
  | .uncaught _ :: _ => true
  | _ :: out => crashed out

/-- A sequence of events handled one after the other, with everything done to the outside.
No event can follow one that ended the server. -/
def run (s : Server) : List Event → Except Failure (Server × List Effect)
  | [] => .ok (s, [])
  | e :: es => do
    let (s1, out1) ← step s e
    if crashed out1 && !es.isEmpty then .error .serverDown
    else
      let (s2, out2) ← run s1 es
      .ok (s2, out1 ++ out2)

/-- The states the server can be in while it is up: those reached from start-up by handling
events none of which ended the server. -/
inductive Reachable : Server → Prop where
  | init (clients : List Client) : Reachable (Server.init clients)
  | step (s s1 : Server) (e : Event) (out : List Effect) :
      Reachable s → step s e = .ok (s1, out) → crashed out = false → Reachable s1

/-- The processes that are running and have not been sent a signal. -/
def Server.unsignalled (s : Server) : List Nat :=
  (List.range s.procs.length).filter fun pid =>
    match s.procs[pid]? with
    | some p => p.running && !p.signalled
    | none => false

/-- The messages broadcast among some effects, in order. -/
def broadcasts : List Effect → List Message
  | [] => []
  | .broadcast m :: out => m :: broadcasts out
  | _ :: out => broadcasts out

/-! ## Summary parsing (`App.js`, lines 52-85) -/

/-- A number as JavaScript arithmetic produces it. Finite values are rationals: rounding to
a double and the sign of zero are outside the embedding. -/
inductive JsNumber where
  | nan
  | infinity (negative : Bool)
  | finite (q : ℚ)

/-- JavaScript truthiness of a value (`none` is `undefined`). -/
def truthy : Option Json → Bool
  | none => false
  | some .null => false
  | some (.bool b) => b
  | some (.num q) => decide (q ≠ 0)
  | some (.str s) => decide (s ≠ "")
  | some (.arr _) => true
  | some (.obj _) => true

/-- Property access `v.key` on a value that is neither `null` nor `undefined`, for a key
that only an object of the document can carry. -/
def member (v : Option Json) (key : String) : Option Json :=
  match v with
  | some (.obj props) => props.lookup key
  | _ => none

/-- The conversion of an operand of `/`. Strings and arrays go through the string grammar of
JavaScript, which the embedding does not follow: they give `NaN` here, as every object does. -/
def toNumber : Option Json → JsNumber
  | none => .nan
  | some .null => .finite 0
  | some (.bool b) => .finite (if b then 1 else 0)
  | some (.num q) => .finite q
  | some (.str _) => .nan
  | some (.arr _) => .nan
  | some (.obj _) => .nan

/-- The operator `/` on numbers. -/
def JsNumber.div : JsNumber → JsNumber → JsNumber
  | .finite a, .finite b =>
    if b ≠ 0 then .finite (a / b)
    else if a = 0 then .nan
    else .infinity (decide (a < 0))
  | .finite _, .infinity _ => .finite 0
  | .infinity n, .finite b => .infinity (n != decide (b < 0))
  | _, _ => .nan

/-- The operator `*` on numbers. -/
def JsNumber.mul : JsNumber → JsNumber → JsNumber
  | .finite a, .finite b => .finite (a * b)
  | .finite a, .infinity n => if a = 0 then .nan else .infinity (n != decide (a < 0))
  | .infinity n, .finite b => if b = 0 then .nan else .infinity (n != decide (b < 0))
  | .infinity n, .infinity k => .infinity (n != k)
  | _, _ => .nan

/-- The method `Number.prototype.toFixed` with two digits, on the exact value: the nearest
multiple of one hundredth, the larger one on a tie. JavaScript rounds the double instead, so
a last digit can differ (1.005 prints `1.00`), and writes magnitudes from `10^21` on in
exponent form. No statement below depends on the digits. -/
def toFixed2 : JsNumber → String
  | .nan => "NaN"
  | .infinity negative => if negative then "-Infinity" else "Infinity"
  | .finite q =>
    let n : Nat := (Int.floor (|q| * 100 + 1 / 2)).toNat
    (if q < 0 then "-" else "") ++ toString (n / 100) ++ "."
      ++ String.mk [Nat.digitChar (n / 10 % 10), Nat.digitChar (n % 10)]

/-- The object handed to `setTestSummary`. -/
structure TestSummary where
  requestsMade : Option Json
  avgResponseTime : String
  failedResponses : String

/-- The body of the `try` block (lines 54-76); an exception is a `Failure`. -/
def parseSummary (summaryData : Json) : Except Failure TestSummary :=
  match summaryData with
  | .null => .error (.thrown "TypeError: Cannot read properties of null (reading 'metrics')")
  | _ =>
    let metrics := member (some summaryData) "metrics"
    if !truthy metrics then
      .error (.thrown "Metrics data is missing from the summary")
    else do
      let http_reqs := member metrics "http_reqs"
      let http_req_duration := member metrics "http_req_duration"
      let http_req_failed := member metrics "http_req_failed"
      let requestsMade :=
        if truthy http_reqs then member http_reqs "count" else some (.str "N/A")
      let avgResponseTime ←
        if truthy http_req_duration then
          match member http_req_duration "avg" with
          | some (.num avg) => .ok (toFixed2 (.finite avg))
          | _ => .error (.thrown "TypeError: metrics.http_req_duration.avg.toFixed")
        else .ok "N/A"
      let failedResponses :=
        if truthy http_reqs && truthy http_req_failed then
          toFixed2 (((toNumber (member http_req_failed "fails")).div
            (toNumber (member http_reqs "count"))).mul (.finite 100))
        else "N/A"
      .ok { requestsMade := requestsMade,
            avgResponseTime := avgResponseTime,
            failedResponses :=
              if failedResponses = "N/A" then "N/A" else failedResponses ++ "%" }

/-- The summary set by the `catch` block (lines 79-83). -/
def errorSummary : TestSummary :=
  { requestsMade := some (.str "Error"), avgResponseTime := "Error", failedResponses := "Error" }

/-- The argument of `setTestSummary` after `processTestSummary(summaryData)` (lines 52-85). -/
def processTestSummary (summaryData : Json) : TestSummary :=
  match parseSummary summaryData with
  | .ok summary => summary
  | .error _ => errorSummary

/-! ## Vocabulary of the statements -/

/-- The number of positions of a text at which `pat` starts. -/
def occurrencesIn (pat : List Char) : List Char → Nat
  | [] => 0
  | c :: cs => (if pat.isPrefixOf (c :: cs) then 1 else 0) + occurrencesIn pat cs

/-- The number of occurrences of `pat` in `text`. -/
def occurrences (pat text : String) : Nat :=
  occurrencesIn pat.data text.data

/-- Where a scan of JavaScript text stands: in code, or inside a string literal in single or
double quotes (right after a backslash, the next character is escaped), or broken: a line
break inside a string literal is a syntax error, after which nothing is code. Comments are
not told apart from code. -/
inductive Lex where
  | code
  | single
  | singleEscape
  | double
  | doubleEscape
  | broken
  deriving DecidableEq

/-- The position of the scan after one more character. -/
def Lex.next : Lex → Char → Lex
  | .code, c => if c = '\'' then .single else if c = '"' then .double else .code
  | .single, c =>
    if c = '\\' then .singleEscape
    else if c = '\'' then .code
    else if c = '\n' ∨ c = '\r' then .broken
    else .single
  | .singleEscape, _ => .single
  | .double, c =>
    if c = '\\' then .doubleEscape
    else if c = '"' then .code
    else if c = '\n' ∨ c = '\r' then .broken
    else .double
  | .doubleEscape, _ => .double
  | .broken, _ => .broken

/-- The number of positions in code, outside string literals, at which `pat` starts, for a
scan that begins in position `st`. -/
def codeOccurrencesIn (pat : List Char) : Lex → List Char → Nat
  | _, [] => 0
  | st, c :: cs =>
    if st = .code ∧ pat.isPrefixOf (c :: cs) = true then
      codeOccurrencesIn pat (st.next c) cs + 1
    else codeOccurrencesIn pat (st.next c) cs

/-- The number of occurrences of `pat` in the code of `text`, outside its string literals. -/
def codeOccurrences (pat text : String) : Nat :=
  codeOccurrencesIn pat.data .code text.data

/-- A URL that closes its string literal and carries a second request and a second pause. -/
def injectedUrl : String :=
  "a'; http.get(url, \x7b\x7d); sleep(1); '"

/-- The scenario with `injectedUrl` as its only URL. -/
def injectedRun : TestConfig :=
  { users := 5, duration := 10, urls := [injectedUrl], loadProfile := "constant",
    rampUpDuration := none, httpMethod := "GET", headers := some [] }

/-- One URL made of the URL `a`, the rest of a GET block, and the start of a block for the
URL `b`. -/
def splicedUrl : String :=
  "a" ++ blockTail (requestContent "GET") ++ "\n    const url = 'b"

/-- The call that is a request of the given method. -/
def requestCall (httpMethod : String) : String :=
  if httpMethod = "GET" then "http.get(url, " else "http.post(url, "

/-- One entry of a `stages` array: a duration in seconds and a target. -/
def stageEntry (seconds target : Int) : String :=
  "      \x7b duration: '" ++ toString seconds ++ "s', target: " ++ toString target ++ " \x7d,\n"

/-- An options stanza made of the given stages, one entry each, in order. -/
def stagesStanza (stages : List (Int × Int)) : String :=
  "\n    stages: [\n" ++ String.join (stages.map fun st => stageEntry st.1 st.2) ++ "    ],\n    "

/-- The flat options stanza: a number of virtual users for a number of seconds. -/
def flatStanza (users duration : Int) : String :=
  "\n    vus: " ++ toString users ++ ",\n    duration: '" ++ toString duration ++ "s',\n    "

/-- The scenario of the specification: constant profile, 5 users, 10 seconds, one URL. -/
def scenario : TestConfig :=
  { users := 5, duration := 10, urls := ["https://example.com"], loadProfile := "constant",
    rampUpDuration := none, httpMethod := "GET", headers := some [] }

/-- A ramp-up run: 20 users, 30 seconds of which 10 ramp up, two URLs, POST. -/
def rampUpRun : TestConfig :=
  { users := 20, duration := 30, urls := ["https://a.test/x", "https://b.test/y"],
    loadProfile := "ramp-up", rampUpDuration := some 10, httpMethod := "POST",
    headers := some [("Authorization", "test")] }

/-- A ramp-up run whose duration, 9007199254740994 seconds, is a double above `2 ^ 53`. -/
def longRampUp : TestConfig :=
  { users := 5, duration := 9007199254740994, urls := ["https://example.com"],
    loadProfile := "ramp-up", rampUpDuration := some 1, httpMethod := "GET",
    headers := none }

/-- A constant run with `2 ^ 53 + 1` users for `10 ^ 21` seconds. -/
def hugeConstant : TestConfig :=
  { users := 9007199254740993, duration := 1000000000000000000000,
    urls := ["https://example.com"], loadProfile := "constant", rampUpDuration := none,
    httpMethod := "GET", headers := none }

/-- A step run that still carries a ramp-up duration. -/
def stepRun : TestConfig :=
  { users := 5, duration := 10, urls := ["https://example.com"], loadProfile := "step",
    rampUpDuration := some 4, httpMethod := "GET", headers := none }

/-- A request body that breaks every rule of the data model: no URL, no user, no duration,
ramp-up without a ramp-up duration. -/
def invalidConfig : TestConfig :=
  { users := 0, duration := 0, urls := [], loadProfile := "ramp-up",
    rampUpDuration := none, httpMethod := "GET", headers := none }

/-- What one pass of the broadcast loop does to one subscriber: an open one gets the
message appended to what it received, any other is left as it is. -/
def deliver (m : Message) (c : Client) : Client :=
  if c.readyState = OPEN then { c with received := c.received ++ [m] } else c

/-- The `output` message carrying `text`. -/
def outputMessage (text : String) : Message :=
  { type := "output", data := .text text }

/-- The `cancelled` message of `/cancel-test`. -/
def cancelledMessage : Message :=
  { type := "cancelled", data := .text "Test cancelled by user" }

/-- The `summary` message carrying the parsed artifact. -/
def summaryMessage (j : Json) : Message :=
  { type := "summary", data := .json j }

/-- A server in the middle of a run: process 0 is current, its buffer holds `"running"`,
one open subscriber is registered. -/
def midRun : Server :=
  { currentK6Process := some 0,
    procs := [{ running := true, signalled := false, outputBuffer := "running" }],
    clients := [{ readyState := OPEN, received := [] }],
    scriptFile := some (scriptContent scenario) }

/-- The processes sent a signal among some effects, in order. -/
def kills : List Effect → List Nat
  | [] => []
  | .kill pid :: out => pid :: kills out
  | _ :: out => kills out

/-- The answers given to requests among some effects, in order. -/
def responses : List Effect → List (Nat × String × String)
  | [] => []
  | .respond status key text :: out => (status, key, text) :: responses out
  | _ :: out => responses out

/-- The number of times the summary artifact is read among some effects. -/
def summaryReads : List Effect → Nat
  | [] => 0
  | .readSummary :: out => summaryReads out + 1
  | _ :: out => summaryReads out

/-- A summary artifact as k6 exports it for a short run. -/
def smallSummary : Json :=
  .obj [("metrics", .obj [("http_reqs", .obj [("count", .num 100)]),
    ("http_req_duration", .obj [("avg", .num 120)]),
    ("http_req_failed", .obj [("fails", .num 5)])])]

/-- What the `close` listener broadcasts for a buffer and a read of the summary artifact:
the buffer when it is not blank, then the summary when the read gave a JSON document. -/
def completionMessages (buffer : String) (summary : SummaryFile) : List Message :=
  (if trim buffer ≠ "" then [outputMessage buffer] else [])
    ++ (match summary with
        | .parsed j => [summaryMessage j]
        | .malformed => []
        | .unreadable => [])

/-- A summary artifact whose `http_req_duration` is present but has no `avg`. -/
def incompleteSummary : Json :=
  .obj [("metrics", .obj [("http_reqs", .obj [("count", .num 100)]),
    ("http_req_duration", .obj []),
    ("http_req_failed", .obj [("fails", .num 5)])])]

/-- A summary artifact with `http_req_failed` but without `http_reqs`. -/
def summaryWithoutReqs : Json :=
  .obj [("metrics", .obj [("http_req_duration", .obj [("avg", .num 120)]),
    ("http_req_failed", .obj [("fails", .num 5)])])]

/-- A summary artifact without `http_req_failed`. -/
def summaryWithoutFailed : Json :=
  .obj [("metrics", .obj [("http_reqs", .obj [("count", .num 100)]),
    ("http_req_duration", .obj [("avg", .num 120)])])]

/-- The text a message carries when it is an output message, nothing otherwise. -/
def Message.outputData (m : Message) : String :=
  if m.type = "output" then
    match m.data with
    | .text t => t
    | .json _ => ""
  else ""

/-- The data of all output messages among some effects, concatenated in the order in which
they were emitted. -/
def outputText (out : List Effect) : String :=
  String.join ((broadcasts out).map Message.outputData)

/-- The events of a sequence of stdout chunks of process `pid`, in arrival order. -/
def stdoutEvents (pid : Nat) (chunks : List String) : List Event :=
  chunks.map (Event.stdoutData pid)

/-- A server right after the first run request: process 0 is current, its buffer is empty,
one open subscriber is registered. -/
def freshRun : Server :=
  { currentK6Process := some 0,
    procs := [{ running := true, signalled := false, outputBuffer := "" }],
    clients := [{ readyState := OPEN, received := [] }],
    scriptFile := some (scriptContent scenario) }

/-! ## Script generation: theorems -/

/-- C4 (as stated, refuted): the request body `invalidConfig` has no URL, no user, no duration
and the ramp-up profile without a ramp-up duration, yet the run request does not fail: it
writes the generated script and spawns process 0. -/
theorem runTest_invalidConfig_spawns :
    step (Server.init []) (.runTest invalidConfig) =
      .ok ({ currentK6Process := some 0,
             procs := [{ running := true, signalled := false, outputBuffer := "" }],
             clients := [],
             scriptFile := some (scriptContent invalidConfig) },
           [.writeScript (scriptContent invalidConfig), .spawn 0])
    ∧ occurrences "duration: 'undefineds'" (scriptContent invalidConfig) = 1
    ∧ occurrences "const url" (scriptContent invalidConfig) = 0 := by
  refine ⟨rfl, ?_, ?_⟩ <;> decide

/-- C4 (amended): the run request validates nothing. For every request body and in every
state it succeeds, writes the script generated from the body, and spawns a new process that
becomes the current one. -/
theorem runTest_never_rejects (s : Server) (cfg : TestConfig) :
    ∃ s1 out, step s (.runTest cfg) = .ok (s1, out)
      ∧ s1.scriptFile = some (scriptContent cfg)
      ∧ Effect.writeScript (scriptContent cfg) ∈ out
      ∧ Effect.spawn s.procs.length ∈ out
      ∧ s1.currentK6Process = some s.procs.length
      ∧ s1.isRunning s.procs.length = true
      ∧ (∀ status key text, Effect.respond status key text ∉ out) := by
  cases hc : s.currentK6Process with
  | none =>
    simp only [step, runTest, hc]
    refine ⟨_, _, rfl, rfl, ?_, ?_, rfl, ?_, ?_⟩
    · simp
    · simp
    · simp [Server.isRunning]
    · simp
  | some old =>
    simp only [step, runTest, hc]
    refine ⟨_, _, rfl, rfl, ?_, ?_, rfl, ?_, ?_⟩
    · simp
    · simp
    · simp [Server.isRunning, List.getElem?_append_right]
    · simp

theorem codeOccurrencesIn_url (pat url rest : List Char)
    (h : ∀ c ∈ url, c ≠ '\'' ∧ c ≠ '\\' ∧ c ≠ '\n' ∧ c ≠ '\r') :
    codeOccurrencesIn pat .single (url ++ rest) = codeOccurrencesIn pat .single rest := by
  induction url with
  | nil => rfl
  | cons c cs ih =>
    have hc := h c (List.mem_cons_self c cs)
    have hn : Lex.next .single c = .single := by
      simp [Lex.next, hc.1, hc.2.1, hc.2.2.1, hc.2.2.2]
    have ht := ih (fun d hd => h d (List.mem_cons_of_mem c hd))
    simp only [List.cons_append, codeOccurrencesIn, hn]
    simp [ht]

theorem codeOccurrences_block (pat : String) (k : Nat) (request : Option String) (url : String)
    (hurl : ∀ c ∈ url.data, c ≠ '\'' ∧ c ≠ '\\' ∧ c ≠ '\n' ∧ c ≠ '\r')
    (hpre : ∀ rest, codeOccurrencesIn pat.data .code ("\n    const url = '".data ++ rest) =
      codeOccurrencesIn pat.data .single rest + k) :
    codeOccurrences pat (iterationBlock request url) =
      codeOccurrencesIn pat.data .single (blockTail request).data + k := by
  simp only [codeOccurrences, iterationBlock, String.data_append, List.append_assoc]
  rw [hpre, codeOccurrencesIn_url _ _ _ hurl]

/-- C7 (as stated, refuted): the config `injectedRun` is a GET config with one URL, which
holds an apostrophe. Its single iteration block holds two `http.get` requests and two
`sleep(1)` in code. A URL ending in a backslash, or one with a line break, gives a block
whose string literal is broken by a line break: no request and no pause is code. And the
one-URL config with `splicedUrl` generates the very script of the two-URL config with
`a` and `b`, so the text of a script does not determine a number of blocks. -/
theorem scriptContent_injected_url :
    injectedRun.httpMethod = "GET" ∧ injectedRun.urls.length = 1
    ∧ codeOccurrences "http.get(url, " (iterationBlock (requestContent "GET") injectedUrl) = 2
    ∧ codeOccurrences "sleep(1);" (iterationBlock (requestContent "GET") injectedUrl) = 2
    ∧ occurrences "http.get(url, " (scriptContent injectedRun) = 2
    ∧ occurrences "sleep(1);" (scriptContent injectedRun) = 2
    ∧ codeOccurrences "http.get(url, " (iterationBlock (requestContent "GET") "a\\") = 0
    ∧ codeOccurrences "sleep(1);" (iterationBlock (requestContent "GET") "a\nb") = 0
    ∧ scriptContent { injectedRun with urls := [splicedUrl] } =
        scriptContent { injectedRun with urls := ["a", "b"] } := by
  refine ⟨rfl, rfl, ?_, ?_, ?_, ?_, ?_, ?_, ?_⟩ <;> decide

/-- C7 (amended): for every config whose httpMethod is GET or POST and whose n URLs hold no
apostrophe, no backslash and no line break, the generated script is the imports, the headers declaration,
the options, then inside the default function exactly n iteration blocks, then the closing
line; the i-th block is the line naming the i-th URL in a string literal followed by the
fixed text of a block, and its code holds exactly one request call, of the configured
method, exactly one check for status 200 and exactly one `sleep(1)`. The script of the
scenario config has exactly one block, one `http.get` and no other request. -/
theorem scriptContent_iteration_blocks (cfg : TestConfig)
    (h : cfg.httpMethod = "GET" ∨ cfg.httpMethod = "POST")
    (hurls : ∀ url ∈ cfg.urls, ∀ c ∈ url.data, c ≠ '\'' ∧ c ≠ '\\' ∧ c ≠ '\n' ∧ c ≠ '\r') :
    (∃ blocks : List String,
      scriptContent cfg =
        "\n  import http from 'k6/http';\n  import \x7b check, sleep \x7d from 'k6';\n\n  "
          ++ headersContent cfg
          ++ "\n\n  export const options = \x7b\n    "
          ++ optionsContent cfg
          ++ "\n    thresholds: \x7b\n      http_req_duration: ['p(95)<500'],\n    \x7d,\n  \x7d;"
          ++ "\n\n  export default function () \x7b\n    "
          ++ String.join blocks
          ++ "\n  \x7d;\n"
      ∧ blocks.length = cfg.urls.length
      ∧ ∀ i (hi : i < cfg.urls.length), ∃ block, blocks[i]? = some block
          ∧ block = "\n    const url = '" ++ cfg.urls[i]
              ++ blockTail (requestContent cfg.httpMethod)
          ∧ codeOccurrences "const url = " block = 1
          ∧ codeOccurrences (requestCall cfg.httpMethod) block = 1
          ∧ codeOccurrences "http." block = 1
          ∧ codeOccurrences "check(res, \x7b 'status is 200': (r) => r.status === 200 \x7d);"
              block = 1
          ∧ codeOccurrences "check(" block = 1
          ∧ codeOccurrences "sleep(1);" block = 1
          ∧ codeOccurrences "sleep(" block = 1)
    ∧ occurrences "const url = 'https://example.com';" (scriptContent scenario) = 1
    ∧ occurrences "const url" (scriptContent scenario) = 1
    ∧ occurrences "http.get(url, " (scriptContent scenario) = 1
    ∧ occurrences "http." (scriptContent scenario) = 1
    ∧ occurrences "sleep(1);" (scriptContent scenario) = 1 := by
  refine ⟨⟨cfg.urls.map (iterationBlock (requestContent cfg.httpMethod)), rfl, by simp,
    fun i hi => ⟨iterationBlock (requestContent cfg.httpMethod) cfg.urls[i], ?_, rfl, ?_⟩⟩,
    by decide, by decide, by decide, by decide, by decide⟩
  · simp [List.getElem?_map, List.getElem?_eq_getElem hi]
  · have hurl := hurls cfg.urls[i] (List.getElem_mem hi)
    rw [codeOccurrences_block "const url = " 1 _ _ hurl (fun _ => rfl),
      codeOccurrences_block "http." 0 _ _ hurl (fun _ => rfl),
      codeOccurrences_block
        "check(res, \x7b 'status is 200': (r) => r.status === 200 \x7d);" 0 _ _ hurl
        (fun _ => rfl),
      codeOccurrences_block "check(" 0 _ _ hurl (fun _ => rfl),
      codeOccurrences_block "sleep(1);" 0 _ _ hurl (fun _ => rfl),
      codeOccurrences_block "sleep(" 0 _ _ hurl (fun _ => rfl)]
    rcases h with h | h
    · rw [h, show requestCall "GET" = "http.get(url, " from rfl,
        codeOccurrences_block "http.get(url, " 0 _ _ hurl (fun _ => rfl)]
      decide
    · rw [h, show requestCall "POST" = "http.post(url, " from rfl,
        codeOccurrences_block "http.post(url, " 0 _ _ hurl (fun _ => rfl)]
      decide

/-- C7, at a concrete input: the POST run with two URLs. -/
theorem scriptContent_iteration_blocks_witness :
    (rampUpRun.httpMethod = "GET" ∨ rampUpRun.httpMethod = "POST")
    ∧ (∀ url ∈ rampUpRun.urls, ∀ c ∈ url.data, c ≠ '\'' ∧ c ≠ '\\' ∧ c ≠ '\n' ∧ c ≠ '\r')
    ∧ ∃ blocks : List String, blocks.length = 2
      ∧ ∃ block, blocks[1]? = some block
        ∧ block = "\n    const url = 'https://b.test/y"
            ++ blockTail (requestContent rampUpRun.httpMethod)
        ∧ codeOccurrences "http.post(url, " block = 1
        ∧ codeOccurrences "sleep(1);" block = 1 := by
  obtain ⟨⟨blocks, -, hlen, hblocks⟩, -⟩ :=
    scriptContent_iteration_blocks rampUpRun (Or.inr rfl) (by decide)
  obtain ⟨block, h1, h2, -, h4, -, -, -, h8, -⟩ := hblocks 1 (by decide)
  exact ⟨Or.inr rfl, by decide, blocks, hlen, block, h1, h2, h4, h8⟩

theorem toDouble_safe (n : Int) (h : n.natAbs < 9007199254740992) :
    toDouble n = .finite n := by
  have hb : n.natAbs < DOUBLE_OVERFLOW := Nat.lt_trans h (by decide)
  have hv : (if n < 0 then -(n.natAbs : Int) else (n.natAbs : Int)) = n := by
    split <;> omega
  simp only [toDouble, roundMagnitude, if_pos h, if_pos hb, hv]

theorem numberToString_safe (n : Int) (h : n.natAbs < 9007199254740992) :
    numberToString (toDouble n) = toString n := by
  simp only [toDouble_safe n h, numberToString, if_pos h]

theorem sub_safe (d r : Int) (h0 : 0 < r) (h1 : r < d) (hd : d < 9007199254740992) :
    (toDouble d).sub (toDouble r) = .finite (d - r) := by
  rw [toDouble_safe d (by omega), toDouble_safe r (by omega)]
  simp only [JsInteger.sub]
  exact toDouble_safe (d - r) (by omega)

/-- C8 (as stated, refuted): the config `longRampUp` has the ramp-up profile and the
integers `rampUpDuration = 1` and `duration = 9007199254740994`, so `0 < rampUpDuration <
duration`. The server subtracts doubles: the second stage is printed as 9007199254740992
seconds, not `duration - rampUpDuration = 9007199254740993`, and the two stage durations add
up to 9007199254740993, not to `duration`. -/
theorem optionsContent_rampUp_rounds :
    longRampUp.loadProfile = "ramp-up"
    ∧ longRampUp.rampUpDuration = some 1
    ∧ (0 : Int) < 1 ∧ 1 < longRampUp.duration
    ∧ (toDouble longRampUp.duration).sub (toDouble 1) = .finite 9007199254740992
    ∧ optionsContent longRampUp = stagesStanza [(1, 5), (9007199254740992, 5)]
    ∧ (1 : Int) + 9007199254740992 ≠ longRampUp.duration
    ∧ occurrences "duration: '9007199254740993s'" (scriptContent longRampUp) = 0
    ∧ occurrences "duration: '9007199254740992s'" (scriptContent longRampUp) = 1 := by
  refine ⟨rfl, rfl, by decide, by decide, ?_, ?_, by decide, ?_, ?_⟩ <;> decide!

/-- C8 (amended): for every config with loadProfile ramp-up and integers
`0 < rampUpDuration < duration < 2 ^ 53`, and `users` below `2 ^ 53` in magnitude, the
options stanza of the generated script is a `stages` array of exactly two entries, the first
of `rampUpDuration` seconds and the second of `duration - rampUpDuration` seconds, both with
target `users`; the numbers the server holds and the difference it computes are exact, both
durations are positive and they add up to `duration`. -/
theorem optionsContent_rampUp (cfg : TestConfig) (r : Int)
    (hp : cfg.loadProfile = "ramp-up") (hr : cfg.rampUpDuration = some r)
    (h0 : 0 < r) (h1 : r < cfg.duration) (hd : cfg.duration < 9007199254740992)
    (hu : cfg.users.natAbs < 9007199254740992) :
    optionsContent cfg = stagesStanza [(r, cfg.users), (cfg.duration - r, cfg.users)]
    ∧ [(r, cfg.users), (cfg.duration - r, cfg.users)].length = 2
    ∧ 0 < r ∧ 0 < cfg.duration - r
    ∧ toDouble r = .finite r
    ∧ (toDouble cfg.duration).sub (toDouble r) = .finite (cfg.duration - r)
    ∧ r + (cfg.duration - r) = cfg.duration
    ∧ ∃ pre post, scriptContent cfg =
        pre ++ "export const options = \x7b\n    "
          ++ stagesStanza [(r, cfg.users), (cfg.duration - r, cfg.users)]
          ++ "\n    thresholds: " ++ post := by
  have hsub := sub_safe cfg.duration r h0 h1 hd
  have hopt : optionsContent cfg =
      stagesStanza [(r, cfg.users), (cfg.duration - r, cfg.users)] := by
    simp only [optionsContent, hp, hr, renderNumber, renderDifference, if_true, stagesStanza,
      stageEntry, List.map, String.join, List.foldl, hsub, numberToString_safe cfg.users hu,
      numberToString_safe r (by omega)]
    rw [← toDouble_safe (cfg.duration - r) (by omega),
      numberToString_safe (cfg.duration - r) (by omega)]
    apply String.ext
    simp only [String.data_append, List.append_assoc]
    rfl
  refine ⟨hopt, rfl, h0, by omega, toDouble_safe r (by omega), hsub, by omega, ?_⟩
  refine ⟨"\n  import http from 'k6/http';\n  import \x7b check, sleep \x7d from 'k6';\n\n  "
      ++ headersContent cfg ++ "\n\n  ",
    "\x7b\n      http_req_duration: ['p(95)<500'],\n    \x7d,\n  \x7d;"
      ++ "\n\n  export default function () \x7b\n    "
      ++ String.join (cfg.urls.map (iterationBlock (requestContent cfg.httpMethod)))
      ++ "\n  \x7d;\n", ?_⟩
  rw [← hopt]
  simp only [scriptContent, scriptHead]
  apply String.ext
  simp only [String.data_append, List.append_assoc]
  rfl

/-- C8, at a concrete input: 30 seconds of which 10 ramp up. -/
theorem optionsContent_rampUp_witness :
    optionsContent rampUpRun = stagesStanza [(10, 20), (20, 20)]
    ∧ (toDouble 30).sub (toDouble 10) = .finite 20
    ∧ (10 : Int) + (30 - 10) = 30 :=
  ⟨(optionsContent_rampUp rampUpRun 10 rfl rfl (by decide) (by decide) (by decide)
      (by decide)).1,
    (optionsContent_rampUp rampUpRun 10 rfl rfl (by decide) (by decide) (by decide)
      (by decide)).2.2.2.2.2.1,
    (optionsContent_rampUp rampUpRun 10 rfl rfl (by decide) (by decide) (by decide)
      (by decide)).2.2.2.2.2.2.1⟩

/-- C9 (as stated, refuted): the config `hugeConstant` has the constant profile, `2 ^ 53 + 1`
users and a duration of `10 ^ 21` seconds. Its options stanza is flat, but `vus` is
9007199254740992, which is not `users`, and the duration is written `1e+21s`: the stanza is
not the one with `vus` equal to `users` and `duration` equal to `duration` seconds. -/
theorem optionsContent_flat_rounds :
    hugeConstant.loadProfile ≠ "ramp-up"
    ∧ optionsContent hugeConstant =
        "\n    vus: 9007199254740992,\n    duration: '1e+21s',\n    "
    ∧ optionsContent hugeConstant ≠ flatStanza hugeConstant.users hugeConstant.duration
    ∧ occurrences "vus: 9007199254740993," (scriptContent hugeConstant) = 0
    ∧ occurrences "duration: '1000000000000000000000s'," (scriptContent hugeConstant) = 0 := by
  refine ⟨by decide, ?_, ?_, ?_, ?_⟩ <;> decide!

/-- C9 (amended): for every config whose loadProfile is not ramp-up (constant, step, or any
other value) the generated script is the one of the constant config with the same other
fields, and it is the same for every value of `rampUpDuration`, present or missing; and
when `users` and `duration` are below `2 ^ 53` in magnitude, the script is the imports, the
headers declaration, the options with the flat stanza (`vus` equal to `users`, `duration`
equal to `duration` seconds) and the thresholds, and the function of iteration blocks. -/
theorem scriptContent_flat (cfg : TestConfig) (hp : cfg.loadProfile ≠ "ramp-up") :
    scriptContent cfg = scriptContent { cfg with loadProfile := "constant" }
    ∧ (∀ r : Option Int, scriptContent { cfg with rampUpDuration := r } = scriptContent cfg)
    ∧ (cfg.users.natAbs < 9007199254740992 → cfg.duration.natAbs < 9007199254740992 →
        optionsContent cfg = flatStanza cfg.users cfg.duration
        ∧ scriptContent cfg =
          "\n  import http from 'k6/http';\n  import \x7b check, sleep \x7d from 'k6';\n\n  "
            ++ headersContent cfg
            ++ "\n\n  export const options = \x7b\n    "
            ++ flatStanza cfg.users cfg.duration
            ++ "\n    thresholds: \x7b\n      http_req_duration: ['p(95)<500'],\n    \x7d,\n  \x7d;"
            ++ "\n\n  export default function () \x7b\n    "
            ++ String.join (cfg.urls.map (iterationBlock (requestContent cfg.httpMethod)))
            ++ "\n  \x7d;\n") := by
  refine ⟨?_, fun r => ?_, fun hu hd => ?_⟩
  · simp [scriptContent, scriptHead, optionsContent, headersContent, hp]
  · simp [scriptContent, scriptHead, optionsContent, headersContent, hp]
  · have hopt : optionsContent cfg = flatStanza cfg.users cfg.duration := by
      simp only [optionsContent, hp, if_false, flatStanza, numberToString_safe cfg.users hu,
        numberToString_safe cfg.duration hd]
    exact ⟨hopt, by simp only [scriptContent, scriptHead, hopt]⟩

/-- C9, at a concrete input: a step run carrying a ramp-up duration of 4 seconds. -/
theorem scriptContent_flat_witness :
    stepRun.loadProfile ≠ "ramp-up"
    ∧ scriptContent stepRun = scriptContent { stepRun with loadProfile := "constant" }
    ∧ scriptContent { stepRun with rampUpDuration := none } = scriptContent stepRun
    ∧ optionsContent stepRun = flatStanza 5 10
    ∧ occurrences "vus: 5,\n    duration: '10s'," (scriptContent stepRun) = 1 :=
  ⟨by decide, (scriptContent_flat stepRun (by decide)).1,
    (scriptContent_flat stepRun (by decide)).2.1 none,
    ((scriptContent_flat stepRun (by decide)).2.2 (by decide) (by decide)).1,
    by decide⟩

/-! ## Broadcast and stdout buffering: theorems -/

theorem broadcast_eq (m : Message) (cs : List Client) :
    broadcast m cs = .ok (cs.map (deliver m)) := by
  induction cs with
  | nil => rfl
  | cons c cs ih =>
    by_cases h : c.readyState = OPEN
    · have h1 : OPEN ≠ CONNECTING := by decide
      simp [broadcast, ih, h, h1, Client.send, deliver, bind, Except.bind]
    · simp [broadcast, ih, h, deliver, bind, Except.bind]

theorem isRunning_iff (s : Server) (pid : Nat) :
    s.isRunning pid = true ↔ ∃ p, s.procs[pid]? = some p ∧ p.running = true := by
  unfold Server.isRunning
  cases h : s.procs[pid]? with
  | none => simp
  | some p => simp

theorem bufferOf_of_getElem? (s : Server) (pid : Nat) (p : Proc) (h : s.procs[pid]? = some p) :
    s.bufferOf pid = p.outputBuffer := by
  simp [Server.bufferOf, h]

theorem sendBufferedOutput_eq (s : Server) (pid : Nat) :
    sendBufferedOutput s pid =
      if trim (s.bufferOf pid) ≠ "" then
        .ok ({ s with
                clients := s.clients.map (deliver (outputMessage (s.bufferOf pid))),
                procs := s.procs.modify (fun p => { p with outputBuffer := "" }) pid },
             [.broadcast (outputMessage (s.bufferOf pid))])
      else .ok (s, []) := by
  unfold sendBufferedOutput
  split
  · simp [broadcast_eq, bind, Except.bind, Server.updateProc, outputMessage]
  · rfl

/-- C5 (as stated, refuted): process 0 has an empty buffer and its standard output delivers
the chunk made of one newline. The buffer then contains a newline, yet no message is
broadcast and the buffer is not emptied. -/
theorem stdoutData_newline_only :
    ∃ s out, run (Server.init []) [.runTest scenario, .stdoutData 0 "\n"] = .ok (s, out)
      ∧ includesNewline (s.bufferOf 0) = true
      ∧ broadcasts out = []
      ∧ s.bufferOf 0 = "\n" :=
  ⟨_, _, rfl, rfl, rfl, rfl⟩

/-- C5 (amended): for every accumulated stdout buffer of a running process and every incoming
chunk, after the chunk is appended: if the buffer contains a newline and is not made of white
space only, exactly one output message carrying the entire accumulated buffer is broadcast
(every open subscriber receives it) and the buffer becomes empty; if it contains no newline,
or white space only, nothing is broadcast and the buffer keeps the accumulated text. -/
theorem stdoutData_flush (s : Server) (pid : Nat) (data : String)
    (hr : s.isRunning pid = true) :
    ∃ s1 out, step s (.stdoutData pid data) = .ok (s1, out)
      ∧ (includesNewline (s.bufferOf pid ++ data) = true → trim (s.bufferOf pid ++ data) ≠ "" →
          out = [.broadcast (outputMessage (s.bufferOf pid ++ data))]
          ∧ s1.bufferOf pid = ""
          ∧ s1.clients = s.clients.map (deliver (outputMessage (s.bufferOf pid ++ data))))
      ∧ (includesNewline (s.bufferOf pid ++ data) = false ∨ trim (s.bufferOf pid ++ data) = "" →
          out = []
          ∧ s1.bufferOf pid = s.bufferOf pid ++ data
          ∧ s1.clients = s.clients) := by
  obtain ⟨p, hp, -⟩ := (isRunning_iff s pid).1 hr
  have hb : s.bufferOf pid = p.outputBuffer := bufferOf_of_getElem? s pid p hp
  have hb1 : (s.updateProc pid fun p => { p with outputBuffer := p.outputBuffer ++ data }).bufferOf
      pid = p.outputBuffer ++ data := by
    simp [Server.bufferOf, Server.updateProc, hp]
  simp only [step, stdoutData, hr, if_true, hb1, hb, sendBufferedOutput_eq]
  by_cases hn : includesNewline (p.outputBuffer ++ data) = true
  · by_cases ht : trim (p.outputBuffer ++ data) = ""
    · simp only [hn, ht, if_true, ne_eq, not_true_eq_false, if_false]
      exact ⟨_, _, rfl, by simp, fun _ => ⟨rfl, hb1, rfl⟩⟩
    · simp only [hn, ht, if_true, ne_eq, not_false_eq_true]
      refine ⟨_, _, rfl, fun _ _ => ⟨rfl, ?_, rfl⟩, by simp [ht]⟩
      simp [Server.bufferOf, Server.updateProc, hp]
  · simp only [hn, if_false]
    exact ⟨_, _, rfl, by simp [hn], fun _ => ⟨rfl, hb1, rfl⟩⟩

/-- C5, at a concrete input: the buffer `"running"` of process 0 and the chunk `" (10s)\n"`. -/
theorem stdoutData_flush_witness :
    run (Server.init [{ readyState := OPEN, received := [] }])
        [.runTest scenario, .stdoutData 0 "running"] =
      .ok (midRun, [.writeScript (scriptContent scenario), .spawn 0])
    ∧ midRun.isRunning 0 = true
    ∧ ∃ s1 out, step midRun (.stdoutData 0 " (10s)\n") = .ok (s1, out)
      ∧ out = [.broadcast (outputMessage "running (10s)\n")]
      ∧ s1.bufferOf 0 = ""
      ∧ s1.clients = [{ readyState := OPEN, received := [outputMessage "running (10s)\n"] }] := by
  obtain ⟨s1, out, h1, h2, -⟩ := stdoutData_flush midRun 0 " (10s)\n" rfl
  exact ⟨rfl, rfl, s1, out, h1, h2 rfl (by decide)⟩

/-- C6 (as stated, refuted): two subscribers are registered, the first one open and the
second one closing (`readyState` 2), so its channel is not open. After the broadcast the
registry still holds both: the subscriber that is not open has not been removed. -/
theorem broadcast_keeps_closed :
    broadcast cancelledMessage
        [{ readyState := OPEN, received := [] }, { readyState := 2, received := [] }] =
      .ok [{ readyState := OPEN, received := [cancelledMessage] },
           { readyState := 2, received := [] }] :=
  rfl

/-- C6 (amended): for every registry of N subscribers of which exactly one (the one at
position `i`) has a channel that is not open, one broadcast raises no error, sends the
message exactly once to each of the other N-1 subscribers, sends nothing to the one that is
not open, and leaves the registry as it was: all N subscribers stay registered, in place. -/
theorem broadcast_one_closed (m : Message) (cs : List Client) (i : Nat) (hi : i < cs.length)
    (hclosed : cs[i].readyState ≠ OPEN)
    (hopen : ∀ j (hj : j < cs.length), j ≠ i → cs[j].readyState = OPEN) :
    ∃ cs1, broadcast m cs = .ok cs1
      ∧ cs1.length = cs.length
      ∧ (∀ j (hj : j < cs.length), j ≠ i →
          cs1[j]? = some { readyState := OPEN, received := cs[j].received ++ [m] })
      ∧ cs1[i]? = some cs[i]
      ∧ cs1.map (fun c => c.readyState) = cs.map (fun c => c.readyState) := by
  refine ⟨cs.map (deliver m), broadcast_eq m cs, by simp, ?_, ?_, ?_⟩
  · intro j hj hne
    have h := hopen j hj hne
    simp [List.getElem?_map, List.getElem?_eq_getElem hj, deliver, h]
  · simp [List.getElem?_map, List.getElem?_eq_getElem hi, deliver, hclosed]
  · simp only [List.map_map]
    apply List.map_congr_left
    intro c _
    simp only [Function.comp, deliver]
    split <;> rfl

/-- C6, at a concrete input: three subscribers, the middle one closing (`readyState` 2). -/
theorem broadcast_one_closed_witness :
    ∃ cs1, broadcast cancelledMessage
        [{ readyState := OPEN, received := [] }, { readyState := 2, received := [] },
         { readyState := OPEN, received := [outputMessage "x\n"] }] = .ok cs1
      ∧ cs1.length = 3
      ∧ cs1[1]? = some { readyState := 2, received := [] } := by
  obtain ⟨cs1, h, hl, -, hc, -⟩ := broadcast_one_closed cancelledMessage
    [{ readyState := OPEN, received := [] }, { readyState := 2, received := [] },
     { readyState := OPEN, received := [outputMessage "x\n"] }] 1 (by decide) (by decide)
    (by
      intro j hj hne
      have : j = 0 ∨ j = 2 := by simp at hj; omega
      rcases this with rfl | rfl <;> rfl)
  exact ⟨cs1, h, hl, hc⟩

/-! ## The supervisor: theorems -/

/-- C1 (the code at the failing input): a run request, a second run request (it signals
process 0 and spawns process 1), the `close` event of process 0 (its listener clears the
shared handle, which by then names process 1), a third run request. The third request finds
the handle empty and signals nothing, so processes 1 and 2 are both running and neither has
been sent a signal. -/
theorem superseded_close_clears_handle :
    ∃ s out, run (Server.init [])
        [.runTest scenario, .runTest scenario, .close 0 .unreadable, .runTest scenario] = .ok (s, out)
      ∧ s.unsignalled = [1, 2]
      ∧ s.isRunning 1 = true ∧ s.isRunning 2 = true
      ∧ kills out = [0]
      ∧ s.currentK6Process = some 2 :=
  ⟨_, _, rfl, rfl, rfl, rfl, rfl, rfl⟩

/-- C2 (as stated, refuted): process 0 has written `partial` (no newline) when the cancel
request succeeds; the summary artifact is readable when the process closes. The cancel
broadcasts the cancelled message, and the later `close` event of that same process reads the
artifact and broadcasts an output message and a summary message. -/
theorem close_after_cancel_sends_summary :
    ∃ s out, run (Server.init [])
        [.runTest scenario, .stdoutData 0 "partial", .cancelTest] = .ok (s, out)
      ∧ broadcasts out = [cancelledMessage]
      ∧ responses out = [(200, "message", "Test cancelled")]
      ∧ s.isRunning 0 = true
      ∧ ∃ s1 out1, step s (.close 0 (.parsed smallSummary)) = .ok (s1, out1)
        ∧ broadcasts out1 = [outputMessage "partial", summaryMessage smallSummary]
        ∧ summaryReads out1 = 1 :=
  ⟨_, _, rfl, rfl, rfl, rfl, _, _, rfl, rfl, rfl⟩

theorem broadcasts_append (a b : List Effect) :
    broadcasts (a ++ b) = broadcasts a ++ broadcasts b := by
  induction a with
  | nil => rfl
  | cons e a ih => cases e <;> simp [broadcasts, ih]

theorem crashed_append (a b : List Effect) :
    crashed (a ++ b) = (crashed a || crashed b) := by
  induction a with
  | nil => simp [crashed]
  | cons e a ih => cases e <;> simp [crashed, ih]

theorem hasOpenClient_deliver (m : Message) (cs : List Client) :
    hasOpenClient (cs.map (deliver m)) = hasOpenClient cs := by
  induction cs with
  | nil => rfl
  | cons c cs ih =>
    simp only [hasOpenClient, List.map, List.any] at ih ⊢
    rw [ih]
    by_cases h : c.readyState = OPEN <;> simp [deliver, h]

theorem run_snoc (e : Event) (es : List Event) :
    ∀ (s s1 s2 : Server) (out1 out2 : List Effect),
      run s es = .ok (s1, out1) → crashed out1 = false → step s1 e = .ok (s2, out2) →
      run s (es ++ [e]) = .ok (s2, out1 ++ out2) := by
  induction es with
  | nil =>
    intro s s1 s2 out1 out2 h1 _ h2
    simp only [run] at h1
    injection h1 with h1
    injection h1 with hs ho
    subst hs
    subst ho
    simp [run, h2, bind, Except.bind]
  | cons e1 es ih =>
    intro s s1 s2 out1 out2 h1 hc h2
    simp only [run, bind, Except.bind] at h1
    cases hstep : step s e1 with
    | error f => simp [hstep] at h1
    | ok r =>
      obtain ⟨sa, oa⟩ := r
      simp only [hstep] at h1
      split at h1
      · simp at h1
      · cases hrest : run sa es with
        | error f => simp [hrest] at h1
        | ok r1 =>
          obtain ⟨sb, ob⟩ := r1
          simp only [hrest] at h1
          injection h1 with h1
          injection h1 with hs ho
          subst hs
          subst ho
          rw [crashed_append] at hc
          have hca : crashed oa = false := by
            cases hoa : crashed oa
            · rfl
            · simp [hoa] at hc
          have hcb : crashed ob = false := by
            cases hob : crashed ob
            · rfl
            · simp [hob] at hc
          simp [run, hstep, hca, ih sa sb s2 ob out2 hrest hcb h2, bind, Except.bind]

theorem close_eq (s : Server) (pid : Nat) (summary : SummaryFile)
    (hr : s.isRunning pid = true) :
    ∃ s1 out, close s pid summary = .ok (s1, out)
      ∧ broadcasts out = completionMessages (s.bufferOf pid) summary
      ∧ summaryReads out = 1
      ∧ responses out = [(200, "message", "Test completed")]
      ∧ s1.currentK6Process = none
      ∧ s1.isRunning pid = false
      ∧ (crashed out = true ↔ summary = .malformed ∧ hasOpenClient s.clients = true) := by
  obtain ⟨p, hp, -⟩ := (isRunning_iff s pid).1 hr
  unfold close
  rw [if_pos hr, sendBufferedOutput_eq]
  by_cases ht : trim (s.bufferOf pid) = ""
  · cases summary with
    | unreadable =>
      simp only [ht, ne_eq, not_true_eq_false, if_false, bind, Except.bind]
      refine ⟨_, _, rfl, ?_, rfl, rfl, rfl, ?_, ?_⟩
      · simp [completionMessages, ht, broadcasts]
      · simp [Server.isRunning, Server.updateProc, hp]
      · simp [crashed]
    | malformed =>
      simp only [ht, ne_eq, not_true_eq_false, if_false, bind, Except.bind, Server.updateProc]
      by_cases ho : hasOpenClient s.clients = true
      · simp only [ho, if_true]
        refine ⟨_, _, rfl, ?_, rfl, rfl, rfl, ?_, ?_⟩
        · simp [completionMessages, ht, broadcasts]
        · simp [Server.isRunning, hp]
        · simp [crashed]
      · simp only [ho, Bool.false_eq_true, if_false]
        refine ⟨_, _, rfl, ?_, rfl, rfl, rfl, ?_, ?_⟩
        · simp [completionMessages, ht, broadcasts]
        · simp [Server.isRunning, hp]
        · simp [crashed, ho]
    | parsed j =>
      simp only [ht, ne_eq, not_true_eq_false, if_false, bind, Except.bind, broadcast_eq]
      refine ⟨_, _, rfl, ?_, rfl, rfl, rfl, ?_, ?_⟩
      · simp [completionMessages, ht, broadcasts, summaryMessage]
      · simp [Server.isRunning, Server.updateProc, hp]
      · simp [crashed]
  · cases summary with
    | unreadable =>
      simp only [ht, ne_eq, not_false_eq_true, if_true, bind, Except.bind]
      refine ⟨_, _, rfl, ?_, rfl, rfl, rfl, ?_, ?_⟩
      · simp [completionMessages, ht, broadcasts]
      · simp [Server.isRunning, Server.updateProc, hp]
      · simp [crashed]
    | malformed =>
      simp only [ht, ne_eq, not_false_eq_true, if_true, bind, Except.bind, Server.updateProc,
        hasOpenClient_deliver]
      by_cases ho : hasOpenClient s.clients = true
      · simp only [ho, if_true]
        refine ⟨_, _, rfl, ?_, rfl, rfl, rfl, ?_, ?_⟩
        · simp [completionMessages, ht, broadcasts]
        · simp [Server.isRunning, hp]
        · simp [crashed]
      · simp only [ho, Bool.false_eq_true, if_false]
        refine ⟨_, _, rfl, ?_, rfl, rfl, rfl, ?_, ?_⟩
        · simp [completionMessages, ht, broadcasts]
        · simp [Server.isRunning, hp]
        · simp [crashed, ho]
    | parsed j =>
      simp only [ht, ne_eq, not_false_eq_true, if_true, bind, Except.bind, broadcast_eq]
      refine ⟨_, _, rfl, ?_, rfl, rfl, rfl, ?_, ?_⟩
      · simp [completionMessages, ht, broadcasts, summaryMessage]
      · simp [Server.isRunning, Server.updateProc, hp]
      · simp [crashed]

/-- C2 (amended): whenever a cancel request succeeds (the handle names process `pid`), the
cancel signals that process, broadcasts exactly one message, the cancelled message, and
answers success; and when, after any later events that leave the server up, that process is
still running, its `close` event runs the ordinary completion: it broadcasts no cancelled
message, reads the summary artifact once, and broadcasts the buffered output when the buffer
is not blank and the summary when the read succeeds and its content is JSON, and nothing
else. When the content read is not JSON no summary is broadcast, and if a subscriber is open
`JSON.parse` throws an exception that nothing catches. -/
theorem cancel_then_close (s s1 s2 : Server) (pid : Nat) (out1 out2 : List Effect)
    (later : List Event) (summary : SummaryFile)
    (hcur : s.currentK6Process = some pid)
    (hcancel : step s .cancelTest = .ok (s1, out1))
    (hlater : run s1 later = .ok (s2, out2))
    (hup : crashed out2 = false)
    (halive : s2.isRunning pid = true) :
    broadcasts out1 = [cancelledMessage]
    ∧ kills out1 = [pid]
    ∧ responses out1 = [(200, "message", "Test cancelled")]
    ∧ ∃ s3 out3, run s1 (later ++ [.close pid summary]) = .ok (s3, out2 ++ out3)
      ∧ broadcasts out3 = completionMessages (s2.bufferOf pid) summary
      ∧ summaryReads out3 = 1
      ∧ (crashed out3 = true ↔ summary = .malformed ∧ hasOpenClient s2.clients = true) := by
  have h1 : out1 = [.kill pid, .broadcast cancelledMessage,
      .respond 200 "message" "Test cancelled"] := by
    simp only [step, cancelTest, hcur, broadcast_eq, bind, Except.bind] at hcancel
    injection hcancel with h
    injection h with _ h
    exact h.symm
  obtain ⟨s3, out3, h3, hb, hr, -, -, -, hc⟩ := close_eq s2 pid summary halive
  subst h1
  exact ⟨rfl, rfl, rfl, s3, out3, run_snoc _ _ _ _ _ _ _ hlater hup h3, hb, hr, hc⟩

/-- C2, at a concrete input: process 0 is cancelled with `running` in its buffer, writes
` (1` before it closes, and the content of the summary artifact is not JSON. -/
theorem cancel_then_close_witness :
    midRun.currentK6Process = some 0
    ∧ ∃ s1 s2 out1 out2, step midRun .cancelTest = .ok (s1, out1)
      ∧ run s1 [.stdoutData 0 " (1"] = .ok (s2, out2)
      ∧ crashed out2 = false
      ∧ s2.isRunning 0 = true
      ∧ broadcasts out1 = [cancelledMessage]
      ∧ ∃ s3 out3,
          run s1 ([.stdoutData 0 " (1"] ++ [.close 0 .malformed]) = .ok (s3, out2 ++ out3)
        ∧ broadcasts out3 = [outputMessage "running (1"]
        ∧ crashed out3 = true := by
  have h := cancel_then_close midRun _ _ 0 _ _ [.stdoutData 0 " (1"] .malformed rfl rfl rfl
    rfl rfl
  obtain ⟨s3, out3, h3, hb, -, hc⟩ := h.2.2.2
  exact ⟨rfl, _, _, _, _, rfl, rfl, rfl, rfl, h.1, s3, out3, h3, hb, hc.2 ⟨rfl, rfl⟩⟩

theorem modify_buffer_getElem? (f : Proc → Proc) (procs : List Proc) (n pid : Nat) (p : Proc)
    (hf : ∀ q, (f q).running = q.running ∧ (f q).signalled = q.signalled)
    (h : procs[pid]? = some p) :
    ∃ p1, (procs.modify f n)[pid]? = some p1 ∧ p1.running = p.running
      ∧ p1.signalled = p.signalled := by
  by_cases hn : n = pid
  · subst hn
    exact ⟨f p, by simp [h], (hf p).1, (hf p).2⟩
  · exact ⟨p, by simp [List.getElem?_modify_ne _ _ hn, h], rfl, rfl⟩

theorem sendBufferedOutput_preserves (s s1 : Server) (n : Nat) (out : List Effect)
    (hs : sendBufferedOutput s n = .ok (s1, out)) :
    s1.currentK6Process = s.currentK6Process
    ∧ ∀ (pid : Nat) (p : Proc), s.procs[pid]? = some p →
        ∃ p1 : Proc, s1.procs[pid]? = some p1 ∧ p1.running = p.running
          ∧ p1.signalled = p.signalled := by
  rw [sendBufferedOutput_eq] at hs
  split at hs
  · injection hs with hs
    injection hs with hs _
    subst hs
    exact ⟨rfl, fun pid p h => modify_buffer_getElem? _ _ n pid p (fun _ => ⟨rfl, rfl⟩) h⟩
  · injection hs with hs
    injection hs with hs _
    subst hs
    exact ⟨rfl, fun pid p h => ⟨p, h, rfl, rfl⟩⟩

/-- In every reachable state the process named by the handle is running and has not been
sent a signal: a cancel request that answers success always signals a live process. -/
theorem handle_running (s : Server) (h : Reachable s) :
    ∀ pid, s.currentK6Process = some pid →
      ∃ p, s.procs[pid]? = some p ∧ p.running = true ∧ p.signalled = false := by
  induction h with
  | init clients => intro pid hc; simp [Server.init] at hc
  | step s s1 e out _ hstep _ ih =>
    intro pid hc
    cases e with
    | runTest cfg =>
      simp only [step, runTest] at hstep
      split at hstep <;>
      · injection hstep with hstep
        injection hstep with hs _
        subst hs
        simp only [Option.some.injEq] at hc
        subst hc
        exact ⟨{ running := true, signalled := false, outputBuffer := "" },
          by simp [List.getElem?_append_right], rfl, rfl⟩
    | cancelTest =>
      simp only [step, cancelTest, broadcast_eq, bind, Except.bind] at hstep
      split at hstep
      · injection hstep with hstep
        injection hstep with hs _
        subst hs
        simp at hc
      · injection hstep with hstep
        injection hstep with hs _
        subst hs
        exact ih pid hc
    | stdoutData n data =>
      simp only [step, stdoutData] at hstep
      split at hstep
      · have hupd : ∀ p, s.procs[pid]? = some p →
            ∃ p1, (s.updateProc n fun q =>
                { q with outputBuffer := q.outputBuffer ++ data }).procs[pid]? = some p1
              ∧ p1.running = p.running ∧ p1.signalled = p.signalled := fun p hp =>
          modify_buffer_getElem? _ _ n pid p (fun _ => ⟨rfl, rfl⟩) hp
        split at hstep
        · obtain ⟨hcur, hprocs⟩ := sendBufferedOutput_preserves _ _ _ _ hstep
          obtain ⟨p, hp, hr, hg⟩ := ih pid (hcur ▸ hc)
          obtain ⟨p1, h1, h2, h3⟩ := hupd p hp
          obtain ⟨p2, h4, h5, h6⟩ := hprocs pid p1 h1
          exact ⟨p2, h4, by rw [h5, h2, hr], by rw [h6, h3, hg]⟩
        · injection hstep with hstep
          injection hstep with hs _
          subst hs
          obtain ⟨p, hp, hr, hg⟩ := ih pid hc
          obtain ⟨p1, h1, h2, h3⟩ := hupd p hp
          exact ⟨p1, h1, h2 ▸ hr, h3 ▸ hg⟩
      · simp at hstep
    | stderrData n data =>
      simp only [step, stderrData, broadcast_eq, bind, Except.bind] at hstep
      split at hstep
      · injection hstep with hstep
        injection hstep with hs _
        subst hs
        exact ih pid hc
      · simp at hstep
    | close n summary =>
      obtain ⟨s2, out2, h2, -, -, -, hnone, -⟩ : ∃ s2 out2, close s n summary = .ok (s2, out2)
          ∧ broadcasts out2 = completionMessages (s.bufferOf n) summary
          ∧ summaryReads out2 = 1
          ∧ responses out2 = [(200, "message", "Test completed")]
          ∧ s2.currentK6Process = none
          ∧ s2.isRunning n = false
          ∧ (crashed out2 = true ↔ summary = .malformed ∧ hasOpenClient s.clients = true) := by
        apply close_eq
        simp only [step, close] at hstep
        by_contra hnr
        simp [hnr] at hstep
      simp only [step, h2] at hstep
      injection hstep with hstep
      injection hstep with hs _
      subst hs
      simp [hnone] at hc

/-- C3 (the code at the failing input): a run request, a second run request, the `close`
event of the superseded process 0. Process 1 is then running and has not been sent a signal,
yet the cancel request answers the 400 error, sends no message and signals nothing. -/
theorem cancel_refused_while_running :
    ∃ s out, run (Server.init [])
        [.runTest scenario, .runTest scenario, .close 0 .unreadable] = .ok (s, out)
      ∧ s.unsignalled = [1]
      ∧ s.isRunning 1 = true
      ∧ s.currentK6Process = none
      ∧ step s .cancelTest = .ok (s, [.respond 400 "error" "No test is currently running"]) :=
  ⟨_, _, rfl, rfl, rfl, rfl, rfl⟩

/-! ## Summary parsing: theorems -/

theorem toFixed2_ne (x : JsNumber) : toFixed2 x ≠ "N/A" := by
  cases x with
  | nan => decide
  | infinity negative => cases negative <;> decide
  | finite q =>
    intro h
    have h1 := congrArg (fun t : String => t.data.reverse[2]?) h
    simp [toFixed2] at h1

theorem percent_ne (t : String) : t ++ "%" ≠ "N/A" := by
  intro h
  have h1 := congrArg (fun t : String => t.data.reverse[0]?) h
  simp at h1

/-- C10 (as stated, refuted): the artifact `incompleteSummary` has a metrics object in which
`http_reqs` and `http_req_failed` are complete and `http_req_duration` is present without
`avg`. The incomplete metric aborts the parsing: the request count and the failed percentage
are reported as `Error` instead of being parsed. And in the artifact `summaryWithoutReqs`
the metric `http_req_failed` is present, yet the failed percentage is unavailable, because
`http_reqs` is missing. -/
theorem processTestSummary_incomplete_aborts :
    processTestSummary incompleteSummary =
      { requestsMade := some (.str "Error"), avgResponseTime := "Error",
        failedResponses := "Error" }
    ∧ member (member (member (some incompleteSummary) "metrics") "http_reqs") "count" =
        some (.num 100)
    ∧ (processTestSummary summaryWithoutReqs).failedResponses = "N/A"
    ∧ member (member (member (some summaryWithoutReqs) "metrics") "http_req_failed") "fails" =
        some (.num 5) :=
  ⟨rfl, rfl, rfl, rfl⟩

/-- C10 (amended): for every summary artifact that has a metrics object in which every one of
the three metrics that is present is an object, `http_reqs` with a numeric `count` and
`http_req_duration` with a numeric `avg`: parsing does not abort; the request count is
unavailable exactly when `http_reqs` is missing and is its `count` otherwise; the average
response time is unavailable exactly when `http_req_duration` is missing and is its `avg`
with two decimals otherwise; the failed percentage is unavailable exactly when
`http_req_failed` or `http_reqs` is missing. In particular, with `http_req_failed` missing
the failed percentage is unavailable while the other two fields are what they are with it. -/
theorem processTestSummary_fields (props metrics : List (String × Json))
    (hm : props.lookup "metrics" = some (.obj metrics))
    (hreqs : ∀ v, metrics.lookup "http_reqs" = some v →
      ∃ ps q, v = .obj ps ∧ ps.lookup "count" = some (.num q))
    (hdur : ∀ v, metrics.lookup "http_req_duration" = some v →
      ∃ ps q, v = .obj ps ∧ ps.lookup "avg" = some (.num q))
    (hfailed : ∀ v, metrics.lookup "http_req_failed" = some v → ∃ ps, v = .obj ps) :
    ∃ t, parseSummary (.obj props) = .ok t
      ∧ processTestSummary (.obj props) = t
      ∧ (t.requestsMade = some (.str "N/A") ↔ metrics.lookup "http_reqs" = none)
      ∧ (∀ ps, metrics.lookup "http_reqs" = some (.obj ps) → t.requestsMade = ps.lookup "count")
      ∧ (t.avgResponseTime = "N/A" ↔ metrics.lookup "http_req_duration" = none)
      ∧ (∀ ps q, metrics.lookup "http_req_duration" = some (.obj ps) →
          ps.lookup "avg" = some (.num q) → t.avgResponseTime = toFixed2 (.finite q))
      ∧ (t.failedResponses = "N/A" ↔
          metrics.lookup "http_req_failed" = none ∨ metrics.lookup "http_reqs" = none) := by
  have key : ∃ t, parseSummary (.obj props) = .ok t
      ∧ (t.requestsMade = some (.str "N/A") ↔ metrics.lookup "http_reqs" = none)
      ∧ (∀ ps, metrics.lookup "http_reqs" = some (.obj ps) → t.requestsMade = ps.lookup "count")
      ∧ (t.avgResponseTime = "N/A" ↔ metrics.lookup "http_req_duration" = none)
      ∧ (∀ ps q, metrics.lookup "http_req_duration" = some (.obj ps) →
          ps.lookup "avg" = some (.num q) → t.avgResponseTime = toFixed2 (.finite q))
      ∧ (t.failedResponses = "N/A" ↔
          metrics.lookup "http_req_failed" = none ∨ metrics.lookup "http_reqs" = none) := by
    simp only [parseSummary, member, hm, truthy, Bool.not_true, Bool.false_eq_true, if_false]
    cases h1 : metrics.lookup "http_reqs" with
    | none =>
      cases h2 : metrics.lookup "http_req_duration" with
      | none => simp [truthy, bind, Except.bind]
      | some d =>
        obtain ⟨ps, q, rfl, hq⟩ := hdur d h2
        simp [truthy, bind, Except.bind, hq, toFixed2_ne]
        intro ps1 q1 he hq1
        subst he
        rw [hq] at hq1
        cases hq1
        rfl
    | some r =>
      obtain ⟨rs, c, rfl, hc⟩ := hreqs r h1
      cases h3 : metrics.lookup "http_req_failed" with
      | none =>
        cases h2 : metrics.lookup "http_req_duration" with
        | none => simp [truthy, bind, Except.bind, hc]
        | some d =>
          obtain ⟨ps, q, rfl, hq⟩ := hdur d h2
          simp [truthy, bind, Except.bind, hq, hc, toFixed2_ne]
          intro ps1 q1 he hq1
          subst he
          rw [hq] at hq1
          cases hq1
          rfl
      | some f =>
        obtain ⟨fs, rfl⟩ := hfailed f h3
        cases h2 : metrics.lookup "http_req_duration" with
        | none => simp [truthy, bind, Except.bind, hc, toFixed2_ne, percent_ne]
        | some d =>
          obtain ⟨ps, q, rfl, hq⟩ := hdur d h2
          simp [truthy, bind, Except.bind, hq, hc, toFixed2_ne, percent_ne]
          intro ps1 q1 he hq1
          subst he
          rw [hq] at hq1
          cases hq1
          rfl
  obtain ⟨t, ht, rest⟩ := key
  exact ⟨t, ht, by simp [processTestSummary, ht], rest⟩

/-- C10, at a concrete input: the artifact without `http_req_failed`. -/
theorem processTestSummary_fields_witness :
    ∃ t, parseSummary summaryWithoutFailed = .ok t
      ∧ processTestSummary summaryWithoutFailed = t
      ∧ t.failedResponses = "N/A"
      ∧ t.requestsMade = some (.num 100)
      ∧ t.avgResponseTime = toFixed2 (.finite 120) := by
  obtain ⟨t, h1, h2, -, h4, -, h6, h7⟩ := processTestSummary_fields
    [("metrics", .obj [("http_reqs", .obj [("count", .num 100)]),
      ("http_req_duration", .obj [("avg", .num 120)])])]
    [("http_reqs", .obj [("count", .num 100)]), ("http_req_duration", .obj [("avg", .num 120)])]
    rfl
    (by intro v hv; exact ⟨[("count", .num 100)], 100, by simpa [List.lookup] using hv.symm, rfl⟩)
    (by intro v hv; exact ⟨[("avg", .num 120)], 120, by simpa [List.lookup] using hv.symm, rfl⟩)
    (by intro v hv; simp [List.lookup] at hv)
  exact ⟨t, h1, h2, h7.2 (Or.inl rfl), h4 _ rfl, h6 _ 120 rfl rfl⟩

/-! ## Output ordering: theorems -/

theorem outputText_nil : outputText [] = "" := rfl

theorem outputText_append (a b : List Effect) :
    outputText (a ++ b) = outputText a ++ outputText b := by
  apply String.ext
  simp [outputText, broadcasts_append]

theorem outputText_output (text : String) :
    outputText [.broadcast (outputMessage text)] = text := by
  apply String.ext
  simp [outputText, broadcasts, outputMessage, Message.outputData]

theorem join_cons (a : String) (l : List String) :
    String.join (a :: l) = a ++ String.join l := by
  apply String.ext
  simp

theorem stdoutData_step (s : Server) (pid : Nat) (data : String)
    (hr : s.isRunning pid = true) :
    ∃ s1 out, step s (.stdoutData pid data) = .ok (s1, out)
      ∧ s1.isRunning pid = true
      ∧ crashed out = false
      ∧ outputText out ++ s1.bufferOf pid = s.bufferOf pid ++ data := by
  obtain ⟨p, hp, hrun⟩ := (isRunning_iff s pid).1 hr
  have hb : s.bufferOf pid = p.outputBuffer := bufferOf_of_getElem? s pid p hp
  have hb1 : (s.updateProc pid fun p => { p with outputBuffer := p.outputBuffer ++ data }).bufferOf
      pid = p.outputBuffer ++ data := by
    simp [Server.bufferOf, Server.updateProc, hp]
  have hr1 : (s.updateProc pid fun p => { p with outputBuffer := p.outputBuffer ++ data }).isRunning
      pid = true := by
    simp [Server.isRunning, Server.updateProc, hp, hrun]
  simp only [step, stdoutData, hr, if_true, hb1, hb, sendBufferedOutput_eq]
  by_cases hn : includesNewline (p.outputBuffer ++ data) = true
  · by_cases ht : trim (p.outputBuffer ++ data) = ""
    · simp only [hn, ht, if_true, ne_eq, not_true_eq_false, if_false]
      exact ⟨_, _, rfl, hr1, rfl, by rw [hb1, outputText_nil]; simp⟩
    · simp only [hn, ht, if_true, ne_eq, not_false_eq_true]
      refine ⟨_, _, rfl, ?_, rfl, ?_⟩
      · simp [Server.isRunning, Server.updateProc, hp, hrun]
      · rw [outputText_output]
        simp [Server.bufferOf, Server.updateProc, hp]
  · simp only [hn, if_false]
    exact ⟨_, _, rfl, hr1, rfl, by rw [hb1, outputText_nil]; simp⟩

theorem close_flush (s : Server) (pid : Nat) (summary : SummaryFile)
    (hr : s.isRunning pid = true) :
    ∃ s1 out, step s (.close pid summary) = .ok (s1, out)
      ∧ outputText out ++ s1.bufferOf pid = s.bufferOf pid := by
  obtain ⟨p, hp, -⟩ := (isRunning_iff s pid).1 hr
  have hb : s.bufferOf pid = p.outputBuffer := bufferOf_of_getElem? s pid p hp
  simp only [step, close]
  rw [if_pos hr, sendBufferedOutput_eq]
  by_cases ht : trim (s.bufferOf pid) = ""
  · cases summary with
    | unreadable =>
      simp only [ht, ne_eq, not_true_eq_false, if_false, bind, Except.bind]
      refine ⟨_, _, rfl, ?_⟩
      apply String.ext
      simp [outputText, broadcasts, Server.bufferOf, Server.updateProc, hp]
    | malformed =>
      simp only [ht, ne_eq, not_true_eq_false, if_false, bind, Except.bind]
      split <;>
      · refine ⟨_, _, rfl, ?_⟩
        apply String.ext
        simp [outputText, broadcasts, Server.bufferOf, Server.updateProc, hp]
    | parsed j =>
      simp only [ht, ne_eq, not_true_eq_false, if_false, bind, Except.bind, broadcast_eq]
      refine ⟨_, _, rfl, ?_⟩
      apply String.ext
      simp [outputText, broadcasts, Message.outputData, Server.bufferOf, Server.updateProc, hp]
  · cases summary with
    | unreadable =>
      simp only [ht, ne_eq, not_false_eq_true, if_true, bind, Except.bind]
      refine ⟨_, _, rfl, ?_⟩
      apply String.ext
      simp [outputText, broadcasts, Message.outputData, outputMessage, Server.bufferOf,
        Server.updateProc, hp]
    | malformed =>
      simp only [ht, ne_eq, not_false_eq_true, if_true, bind, Except.bind]
      split <;>
      · refine ⟨_, _, rfl, ?_⟩
        apply String.ext
        simp [outputText, broadcasts, Message.outputData, outputMessage, Server.bufferOf,
          Server.updateProc, hp]
    | parsed j =>
      simp only [ht, ne_eq, not_false_eq_true, if_true, bind, Except.bind, broadcast_eq]
      refine ⟨_, _, rfl, ?_⟩
      apply String.ext
      simp [outputText, broadcasts, Message.outputData, outputMessage, Server.bufferOf,
        Server.updateProc, hp]

theorem stdoutEvents_run (pid : Nat) (chunks : List String) :
    ∀ s : Server, s.isRunning pid = true →
      ∃ s1 out, run s (stdoutEvents pid chunks) = .ok (s1, out)
        ∧ s1.isRunning pid = true
        ∧ crashed out = false
        ∧ outputText out ++ s1.bufferOf pid = s.bufferOf pid ++ String.join chunks := by
  induction chunks with
  | nil =>
    intro s hr
    exact ⟨s, [], rfl, hr, rfl, by apply String.ext; simp [outputText, broadcasts]⟩
  | cons d rest ih =>
    intro s hr
    obtain ⟨s1, out1, h1, hr1, hc1, hb1⟩ := stdoutData_step s pid d hr
    obtain ⟨s2, out2, h2, hr2, hc2, hb2⟩ := ih s1 hr1
    refine ⟨s2, out1 ++ out2, ?_, hr2, by rw [crashed_append, hc1, hc2]; rfl, ?_⟩
    · simp only [stdoutEvents, List.map, run, bind, Except.bind, h1, hc1]
      simp only [stdoutEvents] at h2
      simp [h2]
    · rw [outputText_append, String.append_assoc, hb2, ← String.append_assoc, hb1, join_cons,
        String.append_assoc]

/-- C11: for every sequence of stdout chunks of one running process, optionally followed by
its exit flush, the handlers run to completion and, after every step (every prefix of the
chunks, and the `close` event after all of them), the data of all output messages emitted so
far, concatenated in emission order and followed by the current buffer, is the text that was
in the buffer at the start (nothing, for a process just spawned) followed by all chunks
received so far in arrival order. -/
theorem stdout_arrival_order (s : Server) (pid : Nat) (chunks : List String)
    (hr : s.isRunning pid = true) :
    (∀ n, ∃ s1 out, run s (stdoutEvents pid (chunks.take n)) = .ok (s1, out)
      ∧ outputText out ++ s1.bufferOf pid = s.bufferOf pid ++ String.join (chunks.take n))
    ∧ ∀ summary, ∃ s2 out,
        run s (stdoutEvents pid chunks ++ [.close pid summary]) = .ok (s2, out)
        ∧ outputText out ++ s2.bufferOf pid = s.bufferOf pid ++ String.join chunks := by
  constructor
  · intro n
    obtain ⟨s1, out, h1, -, -, hb⟩ := stdoutEvents_run pid (chunks.take n) s hr
    exact ⟨s1, out, h1, hb⟩
  · intro summary
    obtain ⟨s1, out1, h1, hr1, hc1, hb1⟩ := stdoutEvents_run pid chunks s hr
    obtain ⟨s2, out2, h2, hb2⟩ := close_flush s1 pid summary hr1
    refine ⟨s2, out1 ++ out2, run_snoc _ _ _ _ _ _ _ h1 hc1 h2, ?_⟩
    rw [outputText_append, String.append_assoc, hb2, hb1]

/-- C11, at a concrete input: process 0, just spawned, writes four chunks, the third of
which is blank, and closes. -/
theorem stdout_arrival_order_witness :
    run (Server.init [{ readyState := OPEN, received := [] }]) [.runTest scenario] =
      .ok (freshRun, [.writeScript (scriptContent scenario), .spawn 0])
    ∧ freshRun.isRunning 0 = true
    ∧ (∃ s1 out, run freshRun (stdoutEvents 0 ["run", "ning\n", "  \n"]) = .ok (s1, out)
      ∧ outputText out ++ s1.bufferOf 0 = "running\n  \n")
    ∧ ∃ s2 out,
        run freshRun (stdoutEvents 0 ["run", "ning\n", "  \n", "done"] ++ [.close 0 .unreadable]) =
          .ok (s2, out)
        ∧ outputText out ++ s2.bufferOf 0 = "running\n  \ndone" :=
  ⟨rfl, rfl,
    (stdout_arrival_order freshRun 0 ["run", "ning\n", "  \n", "done"] rfl).1 3,
    (stdout_arrival_order freshRun 0 ["run", "ning\n", "  \n", "done"] rfl).2 .unreadable⟩

/-! ## The `headers` identifier: theorems -/

theorem headersContent_cons (cfg : TestConfig) (kv : String × String)
    (kvs : List (String × String)) (h : cfg.headers = some (kv :: kvs)) :
    scriptContent cfg =
      "\n  import http from 'k6/http';\n  import \x7b check, sleep \x7d from 'k6';\n\n  "
        ++ ("\n  const headers = " ++ jsonStringifyHeaders (kv :: kvs) ++ ";\n    ")
        ++ "\n\n  export const options = \x7b\n    "
        ++ optionsContent cfg
        ++ "\n    thresholds: \x7b\n      http_req_duration: ['p(95)<500'],\n    \x7d,\n  \x7d;"
        ++ "\n\n  export default function () \x7b\n    "
        ++ String.join (cfg.urls.map (iterationBlock (requestContent cfg.httpMethod)))
        ++ "\n  \x7d;\n" := by
  simp only [scriptContent, scriptHead, headersContent, h]

/-- C12 (the code at the failing input): the scenario config is a GET config whose headers
mapping is empty. Its script has one request statement, which refers to `headers`, and the
word `headers` occurs nowhere else in the script: the identifier is never declared. The same
holds for the GET config `stepRun`, whose headers mapping is absent. -/
theorem scenario_headers_undeclared :
    scenario.httpMethod = "GET" ∧ scenario.headers = some []
    ∧ headersContent scenario = ""
    ∧ occurrences "http.get(url, \x7b headers: headers \x7d);" (scriptContent scenario) = 1
    ∧ occurrences "headers" (scriptContent scenario) = 2
    ∧ occurrences "const headers" (scriptContent scenario) = 0
    ∧ stepRun.httpMethod = "GET" ∧ stepRun.headers = none
    ∧ headersContent stepRun = ""
    ∧ occurrences "http.get(url, \x7b headers: headers \x7d);" (scriptContent stepRun) = 1
    ∧ occurrences "headers" (scriptContent stepRun) = 2
    ∧ occurrences "const headers" (scriptContent stepRun) = 0 := by
  refine ⟨rfl, rfl, rfl, ?_, ?_, ?_, rfl, rfl, rfl, ?_, ?_, ?_⟩ <;> decide

end K6
